import Mathlib

/-!
Verification of the moltworker persistence synchronization subsystem.

Shallow embedding of:
- `src/gateway/sync.ts` (dispatcher `syncToR2`, Archive channel `syncViaBinding`,
  Mirror channel `syncViaMountRsync`),
- the restore coordinator and in-container backup loop of `start-moltbot.sh`
  (`should_restore_from_r2`, the three-layout restore block, the rsync mirroring),
- `plugins/conversation-journal/index.ts` (`sanitizeKey`, `appendEntry`).

JavaScript strings are modelled as Lean `String`; the handful of string
operations the source uses (`includes`, `split`, `trim`, `endsWith`,
regex date check) are given explicit executable definitions over `List Char`
so every concrete run can be checked by `decide`.
-/

namespace Moltworker

/-! ### String helpers mirroring the JavaScript / shell operations used by the source -/

/-- Check that `pat` occurs at the start of `l` (helper for substring search). -/
def listStartsWith : List Char → List Char → Bool
  | [], _ => true
  | _ :: _, [] => false
  | p :: ps, c :: cs => p == c && listStartsWith ps cs

/-- Check that `pat` occurs somewhere inside `l` (helper for substring search). -/
def listHasSub (pat : List Char) : List Char → Bool
  | [] => pat.isEmpty
  | c :: cs => listStartsWith pat (c :: cs) || listHasSub pat cs

/-- JavaScript `s.includes(pat)`. -/
def jsIncludes (s pat : String) : Bool := listHasSub pat.toList s.toList

/-- Split a character list on a separator character; mirrors JavaScript
`String.prototype.split` with a single-character separator (an empty input
yields one empty field, a trailing separator yields a trailing empty field). -/
def splitOnChar (sep : Char) : List Char → List Char → List (List Char)
  | [], acc => [acc.reverse]
  | c :: cs, acc =>
    if c == sep then acc.reverse :: splitOnChar sep cs []
    else splitOnChar sep cs (c :: acc)

/-- JavaScript `s.split('\n')`, as a list of lines (each a character list). -/
def jsSplitLines (s : String) : List (List Char) := splitOnChar '\n' s.toList []

/-- JavaScript `s.trim()` on a character list (strip whitespace on both ends). -/
def jsTrim (l : List Char) : List Char :=
  ((l.dropWhile Char.isWhitespace).reverse.dropWhile Char.isWhitespace).reverse

/-- JavaScript `s.endsWith(pat)`. -/
def jsEndsWith (s pat : String) : Bool :=
  listStartsWith pat.toList.reverse s.toList.reverse

/-- Suffix test on character lists (helper for glob suffix patterns). -/
def listEndsWith (l suf : List Char) : Bool :=
  listStartsWith suf.reverse l.reverse

/-! ### Conversation-journal plugin (`plugins/conversation-journal/index.ts`) -/

/-- The fixed journal directory `JOURNAL_DIR` of the plugin. -/
def JOURNAL_DIR : String := "/root/clawd/journal"

/-- Characters kept by `sanitizeKey`: the class `[a-zA-Z0-9_\-.:]` of the
source regex (ASCII letters, digits, underscore, dash, dot, colon). -/
def journalAllowedChar (c : Char) : Bool :=
  (('a' ≤ c && c ≤ 'z') || ('A' ≤ c && c ≤ 'Z') || ('0' ≤ c && c ≤ '9')
    || c == '_' || c == '-' || c == '.' || c == ':')

/-- `sanitizeKey` from the plugin: every character outside the allowed class
is replaced by an underscore. -/
def sanitizeKey (key : String) : String :=
  String.mk (key.toList.map fun c => if journalAllowedChar c then c else '_')

/-- The file name `appendEntry` writes to, relative to the journal directory. -/
def journalFileName (sessionKey : String) : String :=
  sanitizeKey sessionKey ++ ".jsonl"

/-- The absolute path `appendEntry` writes to:
`path.join(JOURNAL_DIR, sanitizeKey(sessionKey) + ".jsonl")`. -/
def journalFilePath (sessionKey : String) : String :=
  JOURNAL_DIR ++ "/" ++ journalFileName sessionKey

/-! ### The sync subsystem of `src/gateway/sync.ts` -/

/-- The `SyncResult` interface of `src/gateway/sync.ts` (lines 7-12). -/
structure SyncResult where
  success : Bool
  lastSync : Option String := none
  error : Option String := none
  details : Option String := none
deriving DecidableEq

/-- Captured output of a sandbox process (`proc.getLogs()`); an absent stream
is the empty string, matching the `logs.stdout || ''` of the source. -/
structure ProcLogs where
  stdout : String
  stderr : String
deriving DecidableEq

/-- One invocation environment for `syncToR2`: the configuration flags read
from `env`, the clock value used for `new Date().toISOString()`, and the
outcome of every awaited external call the two channels can make.
`Except.error m` models a promise rejected with message `m`; `Except.ok`
a fulfilled one. The mount step is Modelled from the spec: `gateway/r2.ts`
is not among the sources, and spec section 4.3 says the channel "attempts to
mount it, and returns a definitive failure if mounting fails", so
`mountR2Storage` is a boolean outcome and never a rejection. -/
structure ExecEnv where
  hasAccessKey : Bool
  hasSecretKey : Bool
  hasAccountId : Bool
  now : String
  bindingStart : Except String Unit
  bindingWait : Except String Unit
  bindingLogs : Except String ProcLogs
  putBackup : Except String Unit
  putMarker : Except String Unit
  mountOk : Bool
  mirrorStart : Except String Unit
  mirrorWait : Except String Unit
  mirrorLogs : Except String ProcLogs

/-- Store-write and dispatch events observable during one `syncToR2` run. -/
inductive Ev where
  /-- the `put` of the `backup.tar.gz` blob was started -/
  | payloadBegin
  /-- the `put` of the `backup.tar.gz` blob completed (its `await` returned) -/
  | payloadEnd
  /-- the `put` of the `.last-sync` marker was started -/
  | markerBegin
  /-- the `put` of the `.last-sync` marker completed -/
  | markerEnd
  /-- the dispatcher invoked the Mirror channel -/
  | mirrorInvoked
deriving DecidableEq

/-- Outcome of the caller-side parsing of the Archive-channel process output
(`syncViaBinding` lines 75-101). -/
inductive BindingDecision where
  | missingConfig
  | noTarOk
  | parseFailed
  | tooSmall (n : Nat)
  | tarData (base64 : List Char)
deriving DecidableEq

/-- Parsing of the Archive-channel stdout: the `MISSING_CONFIG` sentinel, the
`TAR_OK` completion sentinel, `findIndex` of the exact `TAR_OK` line
(`tarOkIndex < 1` rejects), the join of the preceding lines, and the
`base64Data.length < 100` size check (an empty payload is also below it). -/
def parseBindingStdout (stdout : String) : BindingDecision :=
  if jsIncludes stdout "MISSING_CONFIG" then .missingConfig
  else if !(jsIncludes stdout "TAR_OK") then .noTarOk
  else
    match (jsSplitLines stdout).findIdx? (fun l => l == "TAR_OK".toList) with
    | none => .parseFailed
    | some 0 => .parseFailed
    | some (i + 1) =>
      if ((jsSplitLines stdout).take (i + 1)).flatten.length < 100 then
        .tooSmall ((jsSplitLines stdout).take (i + 1)).flatten.length
      else .tarData ((jsSplitLines stdout).take (i + 1)).flatten

/-- The definitive source-error result of both channels (also the spec
scenario 3 value). -/
def missingConfigResult : SyncResult :=
  { success := false
    error := some "Sync aborted: source missing clawdbot.json"
    details := some "The local config directory is missing critical files." }

/-- Failure when the `TAR_OK` sentinel is absent (line 83). -/
def tarFailedResult (stderr : String) : SyncResult :=
  { success := false
    error := some "Tar command failed"
    details := some (if stderr == "" then "No TAR_OK marker in output" else stderr) }

/-- Failure when the `TAR_OK` line index is below 1 (line 94). -/
def parseFailedResult : SyncResult :=
  { success := false, error := some "Could not parse tar output" }

/-- Failure when the encoded payload is below the size threshold (line 99). -/
def tooSmallResult (n : Nat) : SyncResult :=
  { success := false
    error := some "Tar output too small"
    details := some (toString n ++ " bytes") }

/-- The Archive-channel catch handler (lines 113-119). -/
def bindingCatchResult (m : String) : SyncResult :=
  { success := false, error := some "Binding sync error", details := some m }

/-- The Mirror-channel catch handler (lines 167-173). -/
def mirrorCatchResult (m : String) : SyncResult :=
  { success := false, error := some "Sync error", details := some m }

/-- A try/catch around a computation that yields a `SyncResult`. -/
def catchWith (handler : String → SyncResult) : Except String SyncResult → SyncResult
  | .error m => handler m
  | .ok r => r

/-- The body of the `try` block of `syncViaBinding` (lines 52-112): the chain
of awaited external calls, each of which may reject, together with the store
writes performed. The trace records, in order, the begin and the completion
of the two `MOLTBOT_BUCKET.put` calls. -/
def syncViaBindingBodyE (e : ExecEnv) : Except String SyncResult × List Ev :=
  match e.bindingStart with
  | .error m => (.error m, [])
  | .ok _ =>
    match e.bindingWait with
    | .error m => (.error m, [])
    | .ok _ =>
      match e.bindingLogs with
      | .error m => (.error m, [])
      | .ok logs =>
        match parseBindingStdout logs.stdout with
        | .missingConfig => (.ok missingConfigResult, [])
        | .noTarOk => (.ok (tarFailedResult logs.stderr), [])
        | .parseFailed => (.ok parseFailedResult, [])
        | .tooSmall n => (.ok (tooSmallResult n), [])
        | .tarData _ =>
          match e.putBackup with
          | .error m => (.error m, [.payloadBegin])
          | .ok _ =>
            match e.putMarker with
            | .error m => (.error m, [.payloadBegin, .payloadEnd, .markerBegin])
            | .ok _ =>
              (.ok { success := true, lastSync := some e.now },
                [.payloadBegin, .payloadEnd, .markerBegin, .markerEnd])

/-- `syncViaBinding`: the try body wrapped in its catch handler, which turns
any rejection into a failed `SyncResult` instead of propagating it. -/
def syncViaBindingRun (e : ExecEnv) : SyncResult × List Ev :=
  (catchWith bindingCatchResult (syncViaBindingBodyE e).1, (syncViaBindingBodyE e).2)

/-- First ten characters look like a date: the `^\d{4}-\d{2}-\d{2}` check of
`syncViaMountRsync` (line 158). -/
def isDateLike : List Char → Bool
  | a :: b :: c :: d :: h1 :: e :: f :: h2 :: g :: i :: _ =>
    a.isDigit && b.isDigit && c.isDigit && d.isDigit && h1 == '-'
      && e.isDigit && f.isDigit && h2 == '-' && g.isDigit && i.isDigit
  | _ => false

/-- Caller-side interpretation of the Mirror-channel output (lines 149-166):
the `MISSING_CONFIG` sentinel check, then
`stdout.trim().split('\n').pop()?.trim()` matched against the date pattern;
on a non-match, the diagnostic falls back from stderr to stdout to a fixed
message, matching `logs.stderr || logs.stdout || 'No timestamp produced'`. -/
def parseMirrorStdout (logs : ProcLogs) : SyncResult :=
  if jsIncludes logs.stdout "MISSING_CONFIG" then missingConfigResult
  else
    let lastSync :=
      jsTrim ((splitOnChar '\n' (jsTrim logs.stdout.toList) []).getLast?.getD [])
    if !lastSync.isEmpty && isDateLike lastSync then
      { success := true, lastSync := some (String.mk lastSync) }
    else
      { success := false
        error := some "Sync failed"
        details := some (if logs.stderr != "" then logs.stderr
          else if logs.stdout != "" then logs.stdout
          else "No timestamp produced") }

/-- The body of the `try` block of `syncViaMountRsync` (lines 143-166). -/
def syncViaMountRsyncBodyE (e : ExecEnv) : Except String SyncResult :=
  match e.mirrorStart with
  | .error m => .error m
  | .ok _ =>
    match e.mirrorWait with
    | .error m => .error m
    | .ok _ =>
      match e.mirrorLogs with
      | .error m => .error m
      | .ok logs => .ok (parseMirrorStdout logs)

/-- `syncViaMountRsync` (lines 126-174): the mount prerequisite, then the try
body wrapped in its catch handler. -/
def syncViaMountRsyncRun (e : ExecEnv) : SyncResult :=
  if !e.mountOk then { success := false, error := some "Failed to mount R2 storage" }
  else catchWith mirrorCatchResult (syncViaMountRsyncBodyE e)

/-- The dispatcher test of line 37:
the binding error contains `source missing` or `Sync aborted` (with the
optional chaining of `error?.includes` yielding false on an absent error). -/
def definitiveError (r : SyncResult) : Bool :=
  match r.error with
  | none => false
  | some s => jsIncludes s "source missing" || jsIncludes s "Sync aborted"

/-- Presence of `R2_ACCESS_KEY_ID`, `R2_SECRET_ACCESS_KEY`, `CF_ACCOUNT_ID`
(line 26). -/
def r2Configured (e : ExecEnv) : Bool :=
  e.hasAccessKey && e.hasSecretKey && e.hasAccountId

/-- The dispatcher `syncToR2` (lines 24-45), with its store-write and
mirror-invocation trace. -/
def syncToR2Run (e : ExecEnv) : SyncResult × List Ev :=
  if !r2Configured e then
    ({ success := false, error := some "R2 storage is not configured" }, [])
  else
    let br := syncViaBindingRun e
    if br.1.success then br
    else if definitiveError br.1 then br
    else (syncViaMountRsyncRun e, br.2 ++ [.mirrorInvoked])

/-- `syncViaBinding` at the promise level: `Except.error` would be a rejection
escaping to the caller; the catch handler wraps the whole body, exactly as in
the source. -/
def syncViaBindingPromise (e : ExecEnv) : Except String SyncResult :=
  match syncViaBindingBodyE e with
  | (.error m, _) => .ok (bindingCatchResult m)
  | (.ok r, _) => .ok r

/-- `syncViaMountRsync` at the promise level: the mount call sits outside the
try block (as in the source); the try body is wrapped in its catch handler. -/
def syncViaMountRsyncPromise (e : ExecEnv) : Except String SyncResult :=
  (Except.ok e.mountOk).bind fun mounted =>
    if !mounted then .ok { success := false, error := some "Failed to mount R2 storage" }
    else
      match syncViaMountRsyncBodyE e with
      | .error m => .ok (mirrorCatchResult m)
      | .ok r => .ok r

/-- The dispatcher `syncToR2` at the promise level. -/
def syncToR2Promise (e : ExecEnv) : Except String SyncResult :=
  if !r2Configured e then
    .ok { success := false, error := some "R2 storage is not configured" }
  else
    (syncViaBindingPromise e).bind fun b =>
      if b.success then .ok b
      else if definitiveError b then .ok b
      else syncViaMountRsyncPromise e

/-- The `syncToR2` variant of the direct-mount build (`src/unnamed/part_000`
lines 16-22): a no-op that reports success and performs no store writes. -/
def syncToR2Direct (now : String) : SyncResult × List Ev :=
  ({ success := true
     lastSync := some now
     details := some "Direct R2 mount - no sync needed" }, [])

/-- A concrete definitive-failure run for C1: the process output carries the
`MISSING_CONFIG` sentinel, the dispatcher returns the Archive failure
unchanged and never invokes the Mirror channel. -/
def envMissingConfig : ExecEnv :=
  { hasAccessKey := true, hasSecretKey := true, hasAccountId := true
    now := "2026-01-27T12:00:00Z"
    bindingStart := .ok (), bindingWait := .ok ()
    bindingLogs := .ok { stdout := "MISSING_CONFIG", stderr := "" }
    putBackup := .ok (), putMarker := .ok ()
    mountOk := true
    mirrorStart := .ok (), mirrorWait := .ok ()
    mirrorLogs := .ok { stdout := "2026-01-27T12:00:00+00:00", stderr := "" } }

/-- A concrete successful Archive push for C2: the process output is a
120-character encoded payload followed by the `TAR_OK` sentinel, and the trace
is exactly payload-begin, payload-end, marker-begin, marker-end. -/
def envGoodTar : ExecEnv :=
  { hasAccessKey := true, hasSecretKey := true, hasAccountId := true
    now := "2026-01-27T12:00:00Z"
    bindingStart := .ok (), bindingWait := .ok ()
    bindingLogs := .ok { stdout := String.mk (List.replicate 120 'A') ++ "\nTAR_OK", stderr := "" }
    putBackup := .ok (), putMarker := .ok ()
    mountOk := true
    mirrorStart := .ok (), mirrorWait := .ok ()
    mirrorLogs := .ok { stdout := "", stderr := "" } }

/-- A concrete too-small run for C4: a one-character payload before `TAR_OK`
is rejected as a transport failure with no store writes. -/
def envTinyTar : ExecEnv :=
  { hasAccessKey := true, hasSecretKey := true, hasAccountId := true
    now := "2026-01-27T12:00:00Z"
    bindingStart := .ok (), bindingWait := .ok ()
    bindingLogs := .ok { stdout := "x\nTAR_OK", stderr := "" }
    putBackup := .ok (), putMarker := .ok ()
    mountOk := true
    mirrorStart := .ok (), mirrorWait := .ok ()
    mirrorLogs := .ok { stdout := "", stderr := "" } }

/-! ### Key-set semantics of the rsync mirroring

Used by the Mirror channel (`syncViaMountRsync`, sync.ts lines 134-141) and by
the in-container backup loop (`start-moltbot.sh` lines 708-719), which run
rsync with identical flags. Directory contents are abstracted as finite sets
of relative file keys. -/

/-- Effect of `rsync -r SRC/ DST/` on the destination key set, parameterised
by the `--delete` flag and by the exclusion predicate of the `--exclude`
patterns: non-excluded source keys are copied; with `--delete`, destination
keys that are neither excluded nor present in the source are removed
(excluded keys are protected from deletion); without `--delete` every
destination key survives. -/
def rsyncKeys (useDelete : Bool) (excl : String → Bool) (src dst : Finset String) :
    Finset String :=
  (if useDelete then dst.filter (fun k => excl k ∨ k ∈ src) else dst)
    ∪ src.filter (fun k => ¬ excl k)

/-- The transient-file patterns excluded from the config mirror:
`--exclude='*.lock' --exclude='*.log' --exclude='*.tmp'`. An rsync pattern
without a slash is matched against every path component during recursion, so
a key is excluded when any of its components ends in one of the suffixes
(a matching directory component excludes its whole subtree). -/
def isTransient (k : String) : Bool :=
  (splitOnChar '/' k.toList []).any fun comp =>
    listEndsWith comp ".lock".toList || listEndsWith comp ".log".toList
      || listEndsWith comp ".tmp".toList

/-- The patterns excluded from the workspace sync: `--exclude='node_modules'
--exclude='.git' --exclude='skills'` (a pattern without a slash matches any
path component). -/
def wsExcluded (k : String) : Bool :=
  (splitOnChar '/' k.toList []).any fun comp =>
    comp == "node_modules".toList || comp == ".git".toList || comp == "skills".toList

/-- Key-set effect of a config sync:
`rsync -r --no-times --delete --exclude='*.lock' --exclude='*.log'
--exclude='*.tmp' /root/.clawdbot/ DST/clawdbot/`. -/
def configSyncKeys (src dst : Finset String) : Finset String :=
  rsyncKeys true isTransient src dst

/-- Key-set effect of a skills sync:
`rsync -r --no-times --delete /root/clawd/skills/ DST/skills/` (no excludes). -/
def skillsSyncKeys (src dst : Finset String) : Finset String :=
  rsyncKeys true (fun _ => false) src dst

/-- Key-set effect of a workspace sync: `rsync -r --no-times
--exclude='node_modules' --exclude='.git' --exclude='skills'
/root/clawd/ DST/workspace/` — no `--delete`. -/
def workspaceSyncKeys (src dst : Finset String) : Finset String :=
  rsyncKeys false wsExcluded src dst

/-! ### The restore coordinator of `start-moltbot.sh`

A marker file is `Option (Option Nat)`: `none` when the `.last-sync` file is
absent, `some none` when it exists but `date -d` cannot parse it (the shell
falls back to epoch `0`), `some (some n)` when it parses to epoch second `n`.
Filesystem facts that gate the restore are booleans of the environment. -/

/-- `should_restore_from_r2` (lines 377-411): no remote marker file means no
restore; a remote file with no local file means restore unconditionally;
otherwise compare the parsed epochs, an unparsable timestamp counting as 0. -/
def should_restore_from_r2 : Option (Option Nat) → Option (Option Nat) → Bool
  | none, _ => false
  | some _, none => true
  | some rc, some lc => decide (lc.getD 0 < rc.getD 0)

/-- Epoch of a marker as the claim words it: missing file or unparsable
content both count as epoch 0. (Written from the claim, for comparison with
the source function.) -/
def markerEpoch : Option (Option Nat) → Nat
  | none => 0
  | some c => c.getD 0

/-- The staleness gate as the claim states it: restore iff
`remoteMarkerEpoch > localMarkerEpoch`. (Written from the claim, for
comparison with the source function.) -/
def shouldRestoreClaim (remote localm : Option (Option Nat)) : Bool :=
  decide (markerEpoch localm < markerEpoch remote)

/-- The three historical backup layouts of the restore block. -/
inductive Layout where
  | archive
  | directory
  | legacy
deriving DecidableEq

/-- Remote and local filesystem facts consulted by the restore block. -/
structure RestoreEnv where
  /-- content of `BACKUP_DIR/.last-sync` -/
  remoteMarker : Option (Option Nat)
  /-- content of `CONFIG_DIR/.last-sync` -/
  localMarker : Option (Option Nat)
  /-- `[ -f BACKUP_DIR/backup.tar.gz ]` -/
  hasTar : Bool
  /-- `tar xzf` exits 0 -/
  tarExtractOk : Bool
  /-- the extracted archive has a `.clawdbot` directory -/
  tarHasClawdbot : Bool
  /-- the extracted archive has a `skills` directory -/
  tarHasSkills : Bool
  /-- the extracted archive has a `clawd` directory -/
  tarHasClawd : Bool
  /-- the extracted `clawd` tree carries `memory/` or `SOUL.md` -/
  tarClawdHasArtifacts : Bool
  /-- the local workspace had `memory/` or `SOUL.md` before the restore -/
  wsArtifactsBefore : Bool
  /-- `[ -f BACKUP_DIR/clawdbot/clawdbot.json ]` -/
  hasDirConfig : Bool
  /-- `[ -f BACKUP_DIR/clawdbot.json ]` -/
  hasLegacyConfig : Bool
  /-- `BACKUP_DIR/skills` exists and is non-empty -/
  hasSkillsDir : Bool
  /-- `BACKUP_DIR/workspace` exists and is non-empty -/
  hasWorkspaceDir : Bool
  /-- the tolerated marker copy of the tar path succeeds: line 442 is
  `cp -f "BACKUP_DIR/.last-sync" "CONFIG_DIR/.last-sync" 2>/dev/null || true`,
  so the script continues either way -/
  tarMarkerCopyOk : Bool
  /-- the tolerated marker copy of the directory branch (line 463, same
  `2>/dev/null || true` form) succeeds -/
  dirMarkerCopyOk : Bool
deriving DecidableEq

/-- State threaded through the restore block: which layouts have populated
local state (in order), the current local marker file, the
`RESTORED_FROM_TAR` flag, and whether the workspace holds a marker artifact. -/
structure RestoreState where
  populated : List Layout
  localMarker : Option (Option Nat)
  restoredFromTar : Bool
  wsArtifacts : Bool
deriving DecidableEq

/-- Priority 1, the tar-based restore (lines 417-449): gated on the tar file
and `should_restore_from_r2`; on successful extraction it copies the archive
subtrees over local state, attempts to copy the remote marker over the local
marker (line 442, before any validation, failure tolerated by `|| true`:
on failure the local marker keeps its previous content), and sets
`RESTORED_FROM_TAR`. -/
def restorePhase1 (e : RestoreEnv) : RestoreState :=
  if e.hasTar && should_restore_from_r2 e.remoteMarker e.localMarker then
    if e.tarExtractOk then
      { populated :=
          if e.tarHasClawdbot || e.tarHasSkills || e.tarHasClawd then [Layout.archive] else []
        localMarker := if e.tarMarkerCopyOk then e.remoteMarker else e.localMarker
        restoredFromTar := true
        wsArtifacts := e.wsArtifactsBefore || (e.tarHasClawd && e.tarClawdHasArtifacts) }
    else
      { populated := []
        localMarker := e.localMarker
        restoredFromTar := false
        wsArtifacts := e.wsArtifactsBefore }
  else
    { populated := []
      localMarker := e.localMarker
      restoredFromTar := false
      wsArtifacts := e.wsArtifactsBefore }

/-- The safety check of lines 451-455: a tar restore that left no workspace
marker artifact (no `memory/` subtree, no `SOUL.md`) is demoted so the
directory-based block is entered. -/
def restoreSafetyCheck (s : RestoreState) : RestoreState :=
  if s.restoredFromTar && !s.wsArtifacts then { s with restoredFromTar := false } else s

/-- The directory/legacy config restore of lines 458-473, each branch gated
on `should_restore_from_r2`. The directory branch syncs the marker only
through the tolerated `cp -f` of line 463. The legacy branch runs
`cp -a "BACKUP_DIR/." "CONFIG_DIR/"` (line 470, not failure-tolerated, so
under the script `set -e` any completed run had it succeed), which already
copies `.last-sync` — present whenever the gate passed — so the legacy
marker sync is unconditional. -/
def phase2Config (e : RestoreEnv) (s : RestoreState) : RestoreState :=
  if e.hasDirConfig then
    if should_restore_from_r2 e.remoteMarker s.localMarker then
      { s with populated := s.populated ++ [Layout.directory]
               localMarker := if e.dirMarkerCopyOk then e.remoteMarker else s.localMarker }
    else s
  else if e.hasLegacyConfig then
    if should_restore_from_r2 e.remoteMarker s.localMarker then
      { s with populated := s.populated ++ [Layout.legacy], localMarker := e.remoteMarker }
    else s
  else s

/-- The skills restore of lines 481-488: re-gated on
`should_restore_from_r2`; does not touch the marker. -/
def phase2Skills (e : RestoreEnv) (s : RestoreState) : RestoreState :=
  if e.hasSkillsDir then
    if should_restore_from_r2 e.remoteMarker s.localMarker then
      { s with populated := s.populated ++ [Layout.directory] }
    else s
  else s

/-- The workspace restore of lines 491-498: re-gated on
`should_restore_from_r2`; does not touch the marker. -/
def phase2Workspace (e : RestoreEnv) (s : RestoreState) : RestoreState :=
  if e.hasWorkspaceDir then
    if should_restore_from_r2 e.remoteMarker s.localMarker then
      { s with populated := s.populated ++ [Layout.directory] }
    else s
  else s

/-- Priority 2 (lines 457-499), entered only when `RESTORED_FROM_TAR` is not
set. -/
def restorePhase2 (e : RestoreEnv) (s : RestoreState) : RestoreState :=
  if s.restoredFromTar then s
  else phase2Workspace e (phase2Skills e (phase2Config e s))

/-- The whole restore block of `start-moltbot.sh` (lines 417-499). -/
def runRestore (e : RestoreEnv) : RestoreState :=
  restorePhase2 e (restoreSafetyCheck (restorePhase1 e))

/-- The highest-priority backup layout present in the remote store
(Archive before Directory before Legacy). -/
def highestLayoutPresent (e : RestoreEnv) : Option Layout :=
  if e.hasTar then some Layout.archive
  else if e.hasDirConfig || e.hasSkillsDir || e.hasWorkspaceDir then some Layout.directory
  else if e.hasLegacyConfig then some Layout.legacy
  else none

/-- A restore environment for C7: a tar backup is present but corrupt
(extraction fails), a directory backup is also present, and the remote marker
is newer than the (missing) local one. -/
def envTarCorrupt : RestoreEnv :=
  { remoteMarker := some (some 5), localMarker := none
    hasTar := true, tarExtractOk := false
    tarHasClawdbot := true, tarHasSkills := false, tarHasClawd := false
    tarClawdHasArtifacts := false, wsArtifactsBefore := false
    hasDirConfig := true, hasLegacyConfig := false
    hasSkillsDir := false, hasWorkspaceDir := false
    tarMarkerCopyOk := true, dirMarkerCopyOk := true }

/-- A second C7 environment: the tar backup extracts and restores a skills
subtree, validation fails (no workspace marker artifact), the tolerated
marker copy of line 442 fails (the archive carried no `.clawdbot/.last-sync`
to restore either, so the local marker file stays missing), and a directory
backup is present. -/
def envMarkerCpFail : RestoreEnv :=
  { remoteMarker := some (some 5), localMarker := none
    hasTar := true, tarExtractOk := true
    tarHasClawdbot := false, tarHasSkills := true, tarHasClawd := false
    tarClawdHasArtifacts := false, wsArtifactsBefore := false
    hasDirConfig := true, hasLegacyConfig := false
    hasSkillsDir := false, hasWorkspaceDir := false
    tarMarkerCopyOk := false, dirMarkerCopyOk := true }

/-- The C8 failing input: the tar backup is present and extracts, it restores
the config subtree but the restored workspace has no marker artifact (no
`memory/` subtree, no `SOUL.md`), a directory backup is present, and the
remote marker is newer than the (missing) local marker. -/
def envTarInvalid : RestoreEnv :=
  { remoteMarker := some (some 5), localMarker := none
    hasTar := true, tarExtractOk := true
    tarHasClawdbot := true, tarHasSkills := false, tarHasClawd := false
    tarClawdHasArtifacts := false, wsArtifactsBefore := false
    hasDirConfig := true, hasLegacyConfig := false
    hasSkillsDir := false, hasWorkspaceDir := false
    tarMarkerCopyOk := true, dirMarkerCopyOk := true }

theorem journalAllowedChar_ne_slash (c : Char) (h : journalAllowedChar c = true) :
    c ≠ '/' := by
  intro hc
  subst hc
  exact absurd h (by decide)

theorem string_toList_append (s t : String) : (s ++ t).toList = s.toList ++ t.toList :=
  String.data_append s t

theorem sanitizeKey_chars_allowed (key : String) :
    (sanitizeKey key).toList.all journalAllowedChar = true := by
  unfold sanitizeKey
  show (key.toList.map fun c => if journalAllowedChar c then c else '_').all journalAllowedChar = true
  induction key.toList with
  | nil => rfl
  | cons c cs ih =>
    simp only [List.map_cons, List.all_cons, Bool.and_eq_true]
    refine ⟨?_, ih⟩
    by_cases h : journalAllowedChar c = true
    · simp [h]
    · simp [Bool.not_eq_true] at h
      simp [h]
      decide

theorem journalFileName_no_slash (key : String) :
    ((journalFileName key).toList.all fun c => !(c == '/')) = true := by
  unfold journalFileName
  rw [string_toList_append, List.all_append]
  simp only [Bool.and_eq_true]
  refine ⟨?_, by decide⟩
  have h := sanitizeKey_chars_allowed key
  rw [List.all_eq_true] at h ⊢
  intro c hc
  have hne := journalAllowedChar_ne_slash c (h c hc)
  simp [hne]

/-- C10: the conversation-journal plugin appends only to a file directly inside
`JOURNAL_DIR` whose name is the sanitized session key (every character outside
`[a-zA-Z0-9_\-.:]` replaced by an underscore) followed by `.jsonl`; the file
name contains no path separator and cannot be `.` or `..`, so no session key
can cause a write outside the journal directory. -/
theorem c10_journal_write_confined (key : String) :
    journalFilePath key = "/root/clawd/journal/" ++ journalFileName key
      ∧ ((journalFileName key).toList.all fun c => !(c == '/')) = true
      ∧ jsEndsWith (journalFileName key) ".jsonl" = true
      ∧ journalFileName key ≠ "." ∧ journalFileName key ≠ ".." := by
  refine ⟨rfl, journalFileName_no_slash key, ?_, ?_, ?_⟩
  · unfold jsEndsWith journalFileName
    rw [string_toList_append]
    simp only [List.reverse_append]
    rfl
  · intro h
    have : (journalFileName key).toList = ['.'] := by rw [h]; rfl
    unfold journalFileName at this
    rw [string_toList_append] at this
    have hlen := congrArg List.length this
    simp at hlen
  · intro h
    have : (journalFileName key).toList = ['.', '.'] := by rw [h]; rfl
    unfold journalFileName at this
    rw [string_toList_append] at this
    have hlen := congrArg List.length this
    simp at hlen

/-- Every Archive-channel run stops at a stage of the fixed write sequence:
nothing written, payload started, payload done and marker started, or all
four events in order; in the first three stages the result is a failure. -/
theorem syncViaBindingRun_cases (e : ExecEnv) :
    ((syncViaBindingRun e).1.success = false ∧ (syncViaBindingRun e).2 = [])
      ∨ ((syncViaBindingRun e).1.success = false
          ∧ (syncViaBindingRun e).2 = [Ev.payloadBegin])
      ∨ ((syncViaBindingRun e).1.success = false
          ∧ (syncViaBindingRun e).2 = [Ev.payloadBegin, Ev.payloadEnd, Ev.markerBegin])
      ∨ (syncViaBindingRun e).2
          = [Ev.payloadBegin, Ev.payloadEnd, Ev.markerBegin, Ev.markerEnd] := by
  unfold syncViaBindingRun syncViaBindingBodyE
  cases e.bindingStart with
  | error m => exact Or.inl ⟨rfl, rfl⟩
  | ok u =>
    dsimp only
    cases e.bindingWait with
    | error m => exact Or.inl ⟨rfl, rfl⟩
    | ok u2 =>
      dsimp only
      cases e.bindingLogs with
      | error m => exact Or.inl ⟨rfl, rfl⟩
      | ok logs =>
        dsimp only
        cases parseBindingStdout logs.stdout with
        | missingConfig => exact Or.inl ⟨rfl, rfl⟩
        | noTarOk => exact Or.inl ⟨rfl, rfl⟩
        | parseFailed => exact Or.inl ⟨rfl, rfl⟩
        | tooSmall n => exact Or.inl ⟨rfl, rfl⟩
        | tarData b =>
          dsimp only
          cases e.putBackup with
          | error m => exact Or.inr (Or.inl ⟨rfl, rfl⟩)
          | ok u3 =>
            dsimp only
            cases e.putMarker with
            | error m => exact Or.inr (Or.inr (Or.inl ⟨rfl, rfl⟩))
            | ok u4 => exact Or.inr (Or.inr (Or.inr rfl))

/-- The Archive channel never emits a mirror-invocation event. -/
theorem syncViaBindingRun_no_mirror (e : ExecEnv) :
    Ev.mirrorInvoked ∉ (syncViaBindingRun e).2 := by
  rcases syncViaBindingRun_cases e with ⟨_, h⟩ | ⟨_, h⟩ | ⟨_, h⟩ | h <;> rw [h] <;> simp

/-- C1: with the remote store configured, a failed Archive push whose error is
definitive (contains `source missing` or `Sync aborted`) is returned by the
dispatcher unchanged and the Mirror channel is never invoked; a failed Archive
push with any other (transport-class) error makes the dispatcher invoke the
Mirror channel and return its result. -/
theorem c1_fallback_gating (e : ExecEnv)
    (hc : r2Configured e = true)
    (hf : (syncViaBindingRun e).1.success = false) :
    (definitiveError (syncViaBindingRun e).1 = true →
       syncToR2Run e = syncViaBindingRun e
         ∧ Ev.mirrorInvoked ∉ (syncToR2Run e).2)
      ∧ (definitiveError (syncViaBindingRun e).1 = false →
       (syncToR2Run e).1 = syncViaMountRsyncRun e
         ∧ Ev.mirrorInvoked ∈ (syncToR2Run e).2) := by
  constructor
  · intro hd
    have hr : syncToR2Run e = syncViaBindingRun e := by
      unfold syncToR2Run
      rw [hc]
      simp [hf, hd]
    refine ⟨hr, ?_⟩
    rw [hr]
    exact syncViaBindingRun_no_mirror e
  · intro hd
    have hr : syncToR2Run e = (syncViaMountRsyncRun e, (syncViaBindingRun e).2 ++ [Ev.mirrorInvoked]) := by
      unfold syncToR2Run
      rw [hc]
      simp [hf, hd]
    rw [hr]
    exact ⟨rfl, List.mem_append_right _ (List.mem_singleton_self _)⟩

set_option maxRecDepth 8192 in
theorem c1_fallback_gating_witness :
    syncToR2Run envMissingConfig = syncViaBindingRun envMissingConfig
      ∧ Ev.mirrorInvoked ∉ (syncToR2Run envMissingConfig).2 :=
  (c1_fallback_gating envMissingConfig (by decide) (by decide)).1 (by decide)

/-- C2: whenever the Archive channel starts the `.last-sync` marker write, the
`backup.tar.gz` payload write has already begun and completed before it (the
trace starts with payload-begin, payload-end); if the payload write does not
complete, the marker write never starts; a successful push performs exactly
the four events in order. The direct-mount no-op variant performs no store
write at all, so it also never leaves a marker without a payload. -/
theorem c2_marker_after_payload (e : ExecEnv) (now : String) :
    ((syncViaBindingRun e).1.success = true →
       (syncViaBindingRun e).2
         = [Ev.payloadBegin, Ev.payloadEnd, Ev.markerBegin, Ev.markerEnd])
      ∧ (Ev.markerBegin ∈ (syncViaBindingRun e).2 →
       (syncViaBindingRun e).2.take 2 = [Ev.payloadBegin, Ev.payloadEnd])
      ∧ (Ev.payloadEnd ∉ (syncViaBindingRun e).2 →
       Ev.markerBegin ∉ (syncViaBindingRun e).2
         ∧ Ev.markerEnd ∉ (syncViaBindingRun e).2)
      ∧ (syncToR2Direct now).2 = [] := by
  refine ⟨?_, ?_, ?_, rfl⟩
  · intro hsucc
    rcases syncViaBindingRun_cases e with ⟨hf, h⟩ | ⟨hf, h⟩ | ⟨hf, h⟩ | h
    · rw [hsucc] at hf; exact absurd hf (by simp)
    · rw [hsucc] at hf; exact absurd hf (by simp)
    · rw [hsucc] at hf; exact absurd hf (by simp)
    · exact h
  · intro hmem
    rcases syncViaBindingRun_cases e with ⟨_, h⟩ | ⟨_, h⟩ | ⟨_, h⟩ | h <;> rw [h] at hmem ⊢ <;>
      first
        | rfl
        | exact absurd hmem (by simp)
  · intro hnp
    rcases syncViaBindingRun_cases e with ⟨_, h⟩ | ⟨_, h⟩ | ⟨_, h⟩ | h <;> rw [h] at hnp ⊢
    · exact ⟨by simp, by simp⟩
    · exact ⟨by simp, by simp⟩
    · exact absurd (List.mem_cons_of_mem _ (List.mem_cons_self _ _)) hnp
    · exact absurd (List.mem_cons_of_mem _ (List.mem_cons_self _ _)) hnp

set_option maxRecDepth 8192 in
theorem c2_marker_after_payload_witness :
    (syncViaBindingRun envGoodTar).2
      = [Ev.payloadBegin, Ev.payloadEnd, Ev.markerBegin, Ev.markerEnd] :=
  (c2_marker_after_payload envGoodTar "x").1 (by decide)

/-- Inversion for the size check: the too-small branch is only reached with an
encoded payload strictly below 100 characters. -/
theorem parseBindingStdout_tooSmall_lt (s : String) (n : Nat)
    (h : parseBindingStdout s = .tooSmall n) : n < 100 := by
  unfold parseBindingStdout at h
  split at h
  · exact absurd h (by simp)
  · split at h
    · exact absurd h (by simp)
    · split at h
      · exact absurd h (by simp)
      · exact absurd h (by simp)
      · split at h
        · rename_i hlt
          cases h
          exact hlt
        · exact absurd h (by simp)

/-- C4: when the Archive channel reaches the size check with an encoded
payload below the 100-character threshold (a decoded payload below the minimum
size, about 75 bytes), it returns the `Tar output too small` failure, that
failure is not definitive (so it is eligible for Mirror fallback), and no
store write happens: neither the backup blob nor the marker. -/
theorem c4_small_payload_rejected (e : ExecEnv) (logs : ProcLogs) (n : Nat)
    (hs : e.bindingStart = .ok ()) (hw : e.bindingWait = .ok ())
    (hl : e.bindingLogs = .ok logs)
    (hp : parseBindingStdout logs.stdout = .tooSmall n) :
    syncViaBindingRun e = (tooSmallResult n, [])
      ∧ definitiveError (tooSmallResult n) = false
      ∧ n < 100 := by
  refine ⟨?_, rfl, parseBindingStdout_tooSmall_lt logs.stdout n hp⟩
  unfold syncViaBindingRun syncViaBindingBodyE
  rw [hs]
  dsimp only
  rw [hw]
  dsimp only
  rw [hl]
  dsimp only
  rw [hp]
  rfl

set_option maxRecDepth 8192 in
theorem c4_small_payload_rejected_witness :
    syncViaBindingRun envTinyTar = (tooSmallResult 1, [])
      ∧ definitiveError (tooSmallResult 1) = false
      ∧ 1 < 100 :=
  c4_small_payload_rejected envTinyTar { stdout := "x\nTAR_OK", stderr := "" } 1
    rfl rfl rfl (by decide)

/-- C9: `syncToR2` always resolves to a `SyncResult` and never rejects: every
rejection of an awaited call (submitting the remote command, waiting for it,
retrieving its output, or a store write) in either channel is absorbed by that
channel catch handler, and the mount step reports failure as a boolean, so the
promise-level dispatcher always yields `Except.ok`. -/
theorem c9_always_resolves (e : ExecEnv) :
    ∃ r : SyncResult, syncToR2Promise e = Except.ok r := by
  unfold syncToR2Promise
  cases r2Configured e with
  | false => exact ⟨_, rfl⟩
  | true =>
    have hb : ∃ b, syncViaBindingPromise e = Except.ok b := by
      unfold syncViaBindingPromise
      rcases syncViaBindingBodyE e with ⟨r | r, t⟩
      · exact ⟨_, rfl⟩
      · exact ⟨_, rfl⟩
    rcases hb with ⟨b, hb⟩
    rw [hb]
    show ∃ r, (if b.success then Except.ok b
      else if definitiveError b then Except.ok b
      else syncViaMountRsyncPromise e) = Except.ok r
    cases b.success with
    | true => exact ⟨b, rfl⟩
    | false =>
      cases definitiveError b with
      | true => exact ⟨b, rfl⟩
      | false =>
        show ∃ r, syncViaMountRsyncPromise e = Except.ok r
        unfold syncViaMountRsyncPromise
        cases e.mountOk with
        | false => exact ⟨_, rfl⟩
        | true =>
          cases syncViaMountRsyncBodyE e with
          | error m => exact ⟨_, rfl⟩
          | ok r => exact ⟨_, rfl⟩

/-- C5 counterexample: after a config sync with source `{clawdbot.json}` onto
a destination holding the transient key `old.log`, the destination key set is
not equal to the source key set — the excluded `old.log` is protected from
deletion, contradicting the claim that destination equals source exactly. -/
theorem c5_mirror_exact_counterexample :
    configSyncKeys {"clawdbot.json"} {"old.log"} ≠ ({"clawdbot.json"} : Finset String) := by
  decide

/-- C5 (amended): a skills sync is an exact mirror (destination key set equals
source key set); a config sync mirrors exactly on all non-transient keys
(every non-transient source key is copied and every non-transient destination
key absent from the source is deleted), while transient destination keys
(`*.lock`, `*.log`, `*.tmp`) are neither copied nor deleted. -/
theorem c5_mirror_amended (src dst : Finset String) :
    skillsSyncKeys src dst = src
      ∧ (configSyncKeys src dst).filter (fun k => ¬ isTransient k)
          = src.filter (fun k => ¬ isTransient k)
      ∧ configSyncKeys src dst
          = src.filter (fun k => ¬ isTransient k) ∪ dst.filter (fun k => isTransient k) := by
  refine ⟨?_, ?_, ?_⟩
  · ext k
    simp only [skillsSyncKeys, rsyncKeys, if_true, Finset.mem_union, Finset.mem_filter]
    constructor
    · rintro (⟨hd, h⟩ | ⟨hs, _⟩)
      · rcases h with h | h
        · exact absurd h (by simp)
        · exact h
      · exact hs
    · intro hs
      exact Or.inr ⟨hs, by simp⟩
  · ext k
    simp only [configSyncKeys, rsyncKeys, if_true, Finset.mem_union, Finset.mem_filter]
    constructor
    · rintro ⟨⟨hd, ht | hs⟩ | ⟨hs, hnt⟩, hn⟩
      · exact absurd ht hn
      · exact ⟨hs, hn⟩
      · exact ⟨hs, hn⟩
    · rintro ⟨hs, hn⟩
      exact ⟨Or.inr ⟨hs, hn⟩, hn⟩
  · ext k
    simp only [configSyncKeys, rsyncKeys, if_true, Finset.mem_union, Finset.mem_filter]
    constructor
    · rintro (⟨hd, ht | hs⟩ | ⟨hs, hnt⟩)
      · exact Or.inr ⟨hd, ht⟩
      · by_cases ht : isTransient k
        · exact Or.inr ⟨hd, ht⟩
        · exact Or.inl ⟨hs, ht⟩
      · exact Or.inl ⟨hs, hnt⟩
    · rintro (⟨hs, hnt⟩ | ⟨hd, ht⟩)
      · exact Or.inr ⟨hs, hnt⟩
      · exact Or.inl ⟨hd, Or.inl ht⟩

/-- C6 counterexample: a workspace sync with source `{skills/a.md}` (a key
under the excluded `skills` component) onto an empty destination yields the
empty destination key set, not `D ∪ S` — the excluded source key is not
copied, contradicting the claim that the result is exactly `D ∪ S`. -/
theorem c6_workspace_union_counterexample :
    workspaceSyncKeys {"skills/a.md"} ∅ ≠ ((∅ : Finset String) ∪ {"skills/a.md"}) := by
  decide

/-- C6 (amended): a workspace sync never removes destination keys — the
resulting key set is `D ∪ (S minus the excluded node_modules/.git/skills
keys)`; in particular every key present only on the destination beforehand
remains present afterwards. -/
theorem c6_workspace_additive (src dst : Finset String) :
    workspaceSyncKeys src dst = dst ∪ src.filter (fun k => ¬ wsExcluded k)
      ∧ dst ⊆ workspaceSyncKeys src dst := by
  constructor
  · rfl
  · intro k hk
    exact Finset.mem_union_left _ hk

/-- After any restore that copied the remote marker over the local one, the
staleness gate always answers no: identical marker files compare equal. -/
theorem should_restore_self (r : Option (Option Nat)) :
    should_restore_from_r2 r r = false := by
  rcases r with _ | rc
  · rfl
  · simp [should_restore_from_r2]

theorem phase2Config_gate_false (e : RestoreEnv) (s : RestoreState)
    (h : should_restore_from_r2 e.remoteMarker s.localMarker = false) :
    phase2Config e s = s := by
  unfold phase2Config
  simp [h]

theorem phase2Skills_gate_false (e : RestoreEnv) (s : RestoreState)
    (h : should_restore_from_r2 e.remoteMarker s.localMarker = false) :
    phase2Skills e s = s := by
  unfold phase2Skills
  simp [h]

theorem phase2Workspace_gate_false (e : RestoreEnv) (s : RestoreState)
    (h : should_restore_from_r2 e.remoteMarker s.localMarker = false) :
    phase2Workspace e s = s := by
  unfold phase2Workspace
  simp [h]

theorem restorePhase2_gate_false (e : RestoreEnv) (s : RestoreState)
    (h : should_restore_from_r2 e.remoteMarker s.localMarker = false) :
    restorePhase2 e s = s := by
  unfold restorePhase2
  split
  · rfl
  · rw [phase2Config_gate_false e s h, phase2Skills_gate_false e s h,
      phase2Workspace_gate_false e s h]

theorem phase2Config_cases (e : RestoreEnv) (s : RestoreState) :
    phase2Config e s = s
      ∨ (phase2Config e s).populated = s.populated ++ [Layout.directory]
      ∨ ((phase2Config e s).populated = s.populated ++ [Layout.legacy]
          ∧ (phase2Config e s).localMarker = e.remoteMarker) := by
  unfold phase2Config
  split_ifs <;>
    first
      | exact Or.inl rfl
      | exact Or.inr (Or.inl rfl)
      | exact Or.inr (Or.inr ⟨rfl, rfl⟩)

theorem phase2Skills_cases (e : RestoreEnv) (s : RestoreState) :
    phase2Skills e s = s
      ∨ ((phase2Skills e s).populated = s.populated ++ [Layout.directory]
          ∧ (phase2Skills e s).localMarker = s.localMarker) := by
  unfold phase2Skills
  split_ifs
  · exact Or.inr ⟨rfl, rfl⟩
  · exact Or.inl rfl
  · exact Or.inl rfl

theorem phase2Workspace_cases (e : RestoreEnv) (s : RestoreState) :
    phase2Workspace e s = s
      ∨ ((phase2Workspace e s).populated = s.populated ++ [Layout.directory]
          ∧ (phase2Workspace e s).localMarker = s.localMarker) := by
  unfold phase2Workspace
  split_ifs
  · exact Or.inr ⟨rfl, rfl⟩
  · exact Or.inl rfl
  · exact Or.inl rfl

theorem restorePhase1_cases (e : RestoreEnv) :
    restorePhase1 e
        = { populated := [], localMarker := e.localMarker
            restoredFromTar := false, wsArtifacts := e.wsArtifactsBefore }
      ∨ ((restorePhase1 e).populated = [] ∨ (restorePhase1 e).populated = [Layout.archive])
        ∧ (restorePhase1 e).localMarker
            = (if e.tarMarkerCopyOk then e.remoteMarker else e.localMarker) := by
  unfold restorePhase1
  split_ifs <;>
    first
      | exact Or.inl rfl
      | exact Or.inr ⟨Or.inl rfl, rfl⟩
      | exact Or.inr ⟨Or.inr rfl, rfl⟩

theorem restoreSafetyCheck_fields (s : RestoreState) :
    (restoreSafetyCheck s).populated = s.populated
      ∧ (restoreSafetyCheck s).localMarker = s.localMarker := by
  unfold restoreSafetyCheck
  split
  · exact ⟨rfl, rfl⟩
  · exact ⟨rfl, rfl⟩

/-- Phase 2 started from a state with nothing populated yields at most one
distinct layout: a config restore synchronizes the markers and thereby gates
off the skills and workspace restores, while skills and workspace restores
both belong to the Directory layout. -/
theorem restorePhase2_dedup_le (e : RestoreEnv) (s : RestoreState)
    (hpop : s.populated = []) :
    ((restorePhase2 e s).populated).dedup.length ≤ 1 := by
  unfold restorePhase2
  split
  · simp [hpop]
  · rcases phase2Config_cases e s with hc | hcd | ⟨hcl, hclm⟩
    · rw [hc]
      rcases phase2Skills_cases e s with hs1 | ⟨hs1p, hs1m⟩
      · rw [hs1]
        rcases phase2Workspace_cases e s with hw | ⟨hwp, hwm⟩
        · rw [hw]
          simp [hpop]
        · rw [hwp, hpop]
          decide
      · rcases phase2Workspace_cases e (phase2Skills e s) with hw | ⟨hwp, hwm⟩
        · rw [hw, hs1p, hpop]
          decide
        · rw [hwp, hs1p, hpop]
          decide
    · rcases phase2Skills_cases e (phase2Config e s) with hs1 | ⟨hs1p, hs1m⟩
      · rw [hs1]
        rcases phase2Workspace_cases e (phase2Config e s) with hw | ⟨hwp, hwm⟩
        · rw [hw, hcd, hpop]
          decide
        · rw [hwp, hcd, hpop]
          decide
      · rcases phase2Workspace_cases e (phase2Skills e (phase2Config e s)) with hw | ⟨hwp, hwm⟩
        · rw [hw, hs1p, hcd, hpop]
          decide
        · rw [hwp, hs1p, hcd, hpop]
          decide
    · have hg : should_restore_from_r2 e.remoteMarker (phase2Config e s).localMarker = false := by
        rw [hclm]
        exact should_restore_self e.remoteMarker
      rw [phase2Skills_gate_false e _ hg, phase2Workspace_gate_false e _ hg, hcl, hpop]
      decide

/-- C3 counterexample: a remote `.last-sync` file with unparsable content
(remote epoch 0) and no local `.last-sync` file (local epoch 0): the source
restores, while the claim (restore iff remote epoch strictly greater, missing
or unparsable as epoch 0) says skip. -/
theorem c3_staleness_gate_counterexample :
    should_restore_from_r2 (some none) none = true
      ∧ shouldRestoreClaim (some none) none = false := by
  decide

/-- C3 (amended): the restore gate fires iff the remote marker file exists
and either the local marker file is missing (restore unconditionally, whatever
the remote timestamp parses to) or the remote epoch is strictly greater than
the local epoch, with unparsable timestamps treated as epoch 0 on both sides;
in particular a missing remote marker never triggers a restore and equal
epochs of two existing markers skip the restore. -/
theorem c3_staleness_gate_amended (remote localm : Option (Option Nat)) :
    should_restore_from_r2 remote localm
      = (remote.isSome && (localm.isNone || shouldRestoreClaim remote localm)) := by
  rcases remote with _ | rc <;> rcases localm with _ | lc <;>
    simp [should_restore_from_r2, shouldRestoreClaim, markerEpoch]

/-- C7 counterexample, refuting both parts of the claim. With a corrupt tar
present (`envTarCorrupt`), local state is populated from the Directory layout
even though the highest-priority layout present is the Archive, so the layout
consulted is not the highest-priority present one. And when the tolerated
line-442 marker copy fails after a tar restore whose validation fails
(`envMarkerCpFail`), the directory gate still sees the stale local marker and
performs a real Directory restore after the Archive already populated: two
distinct layouts populate local state in one run. -/
theorem c7_highest_priority_counterexample :
    ((runRestore envTarCorrupt).populated = [Layout.directory]
      ∧ highestLayoutPresent envTarCorrupt = some Layout.archive
      ∧ ¬ (runRestore envTarCorrupt).populated = [Layout.archive])
    ∧ ((runRestore envMarkerCpFail).populated = [Layout.archive, Layout.directory]
      ∧ ((runRestore envMarkerCpFail).populated).dedup.length = 2) := by
  decide

/-- C7 (amended): provided the tolerated marker copy of the tar path (line
442) succeeds, at most one distinct backup layout populates local state in a
single restore run; that layout need not be the highest-priority layout
present (a corrupt tar falls through to the directory restore). When that
marker copy fails — a failure the script explicitly tolerates with
`|| true` — a demoted tar restore can be followed by a real directory
restore, so two layouts populate one run (see the counterexample). -/
theorem c7_single_layout_amended (e : RestoreEnv) (hcp : e.tarMarkerCopyOk = true) :
    ((runRestore e).populated).dedup.length ≤ 1 := by
  unfold runRestore
  rcases restorePhase1_cases e with h1 | ⟨hpop, hmark⟩
  · rw [h1]
    exact restorePhase2_dedup_le e _ rfl
  · simp only [hcp, if_true] at hmark
    have hf := restoreSafetyCheck_fields (restorePhase1 e)
    have hg : should_restore_from_r2 e.remoteMarker
        (restoreSafetyCheck (restorePhase1 e)).localMarker = false := by
      rw [hf.2, hmark]
      exact should_restore_self e.remoteMarker
    rw [restorePhase2_gate_false e _ hg, hf.1]
    rcases hpop with h | h <;> rw [h] <;> decide

/-- C7 (amended) instantiated at a concrete run with the marker copy
succeeding: the corrupt-tar environment populates only one distinct layout. -/
theorem c7_single_layout_amended_witness :
    ((runRestore envTarCorrupt).populated).dedup.length ≤ 1 :=
  c7_single_layout_amended envTarCorrupt rfl

/-- C8: on the failing input the Archive attempt is demoted by the safety
check (`RESTORED_FROM_TAR` ends false) and the Directory block is entered,
but because the tar restore already copied the remote marker over the local
marker (line 442, before the validation check of line 452), the re-evaluated
`should_restore_from_r2` gate compares equal markers and the Directory-layout
restore copies nothing: the run populates from the Archive layout only, with
no Directory fallback, contradicting the claim (and the message of line 453
of the script, which announces falling through to the directory backup). -/
theorem c8_directory_fallback_dead :
    (restoreSafetyCheck (restorePhase1 envTarInvalid)).restoredFromTar = false
      ∧ envTarInvalid.hasDirConfig = true
      ∧ (runRestore envTarInvalid).populated = [Layout.archive]
      ∧ ¬ Layout.directory ∈ (runRestore envTarInvalid).populated := by
  decide

/-- C10 instantiated at a traversal-shaped session key: the sanitized file
name keeps the write inside the journal directory. -/
theorem c10_journal_write_confined_witness :
    journalFilePath "a/../b" = "/root/clawd/journal/" ++ journalFileName "a/../b"
      ∧ ((journalFileName "a/../b").toList.all fun c => !(c == '/')) = true
      ∧ jsEndsWith (journalFileName "a/../b") ".jsonl" = true
      ∧ journalFileName "a/../b" ≠ "." ∧ journalFileName "a/../b" ≠ ".." :=
  c10_journal_write_confined "a/../b"

/-- C6 (amended) instantiated at concrete key sets: the destination key
survives and the non-excluded source key is added. -/
theorem c6_workspace_additive_witness :
    workspaceSyncKeys {"notes.md"} {"old.md"}
      = {"old.md"} ∪ ({"notes.md"} : Finset String).filter (fun k => ¬ wsExcluded k) :=
  (c6_workspace_additive {"notes.md"} {"old.md"}).1

/-- C5 (amended) instantiated at concrete key sets. -/
theorem c5_mirror_amended_witness :
    skillsSyncKeys {"a.md"} {"b.md"} = ({"a.md"} : Finset String) :=
  (c5_mirror_amended {"a.md"} {"b.md"}).1

/-- C3 (amended) instantiated at concrete markers: both files exist with
equal epochs, so the restore is skipped. -/
theorem c3_staleness_gate_amended_witness :
    should_restore_from_r2 (some (some 7)) (some (some 7))
      = ((some (some 7) : Option (Option Nat)).isSome
          && ((some (some 7) : Option (Option Nat)).isNone
            || shouldRestoreClaim (some (some 7)) (some (some 7)))) :=
  c3_staleness_gate_amended (some (some 7)) (some (some 7))

end Moltworker
